import Mathlib

/-
  Verification development for the PMS parking-system repository.

  Shallow embedding of the decision/protocol core of:
    - pms_hardware/src/car_entry.py      (entry lane control loop)
    - pms_hardware/src/car_exit.py       (exit lane control loop, alert subsystem)
    - pms_hardware/src/process_payment.py (payment handshake)

  Conventions of the embedding:
    - Wall-clock instants are Int seconds since epoch.  The TEXT timestamps
      stored by the code use the format YYYY-MM-DD HH:MM:SS, whose
      lexicographic order coincides with chronological order, so entry_time
      is embedded as an Int and SQL ORDER BY entry_time is Int order.
    - sqlite tables are lists of typed rows; SELECT/UPDATE/INSERT become
      list operations mirroring the SQL the code issues.
    - Serial I/O becomes explicit lists of emitted commands; inbound serial
      traffic within a timeout window becomes an explicit argument.
    - A storage error is a distinguished DbResult.err value; a Python
      exception escaping a function is an Except.error value.
-/

/-- Outcome of a sqlite call as seen by a caller: a value, or a raised
sqlite3 error. -/
inductive DbResult (α : Type) : Type
  | ok (a : α)
  | err
deriving DecidableEq, Repr

namespace Consensus

/-! Plate consensus, inlined identically in car_entry.py (lines 323-344)
and car_exit.py (lines 263-300):
  common = Counter(plate_buffer).most_common(1)[0][0]
once the buffer holds CAPTURE_THRESHOLD candidates, then the buffer is
cleared unconditionally. -/

/-- CAPTURE_THRESHOLD = 3 (both car_entry.py line 25 and car_exit.py line 27). -/
def CAPTURE_THRESHOLD : Nat := 3

/-- Number of occurrences of a string in the buffer (Counter's count). -/
def countOcc (l : List String) (s : String) : Nat := l.count s

/-- The distinct values of a list in first-seen order: Counter's keys are
iterated in first-insertion order. -/
def firstSeen : List String → List String
  | [] => []
  | a :: l => a :: firstSeen (l.filter (fun x => x != a))
termination_by l => l.length
decreasing_by
  simp only [List.length_cons]
  exact Nat.lt_succ_of_le (List.length_filter_le _ _)

/-- Scan the remaining first-seen keys keeping the current best; a later key
replaces the best only with a strictly greater count, so ties keep the
earlier (first-seen) key, as Counter.most_common's stable sort does. -/
def pickMaxFrom (counts : String → Nat) : String → List String → String
  | b, [] => b
  | b, a :: l => if counts b < counts a then pickMaxFrom counts a l else pickMaxFrom counts b l

/-- Counter(buffer).most_common(1)[0][0]: the most frequent value, ties
broken by first occurrence; none on an empty buffer. -/
def mostCommon (l : List String) : Option String :=
  match firstSeen l with
  | [] => none
  | a :: m => some (pickMaxFrom (countOcc l) a m)

/-- One consensus step: append the accepted candidate; once the buffer
reaches CAPTURE_THRESHOLD, decide via mostCommon and clear the buffer. -/
def observe (buf : List String) (c : String) : Option String × List String :=
  let buf1 := buf ++ [c]
  if CAPTURE_THRESHOLD ≤ buf1.length then (mostCommon buf1, []) else (none, buf1)

/-- Feed a sequence of accepted candidates through observe, collecting the
decisions and the final buffer. -/
def observeAll (buf : List String) : List String → List (Option String) × List String
  | [] => ([], buf)
  | c :: cs =>
    let r := observe buf c
    let rest := observeAll r.2 cs
    (r.1 :: rest.1, rest.2)

/-- One value occurs strictly more often than every other value present. -/
def StrictPlurality (xs : List String) (v : String) : Prop :=
  v ∈ xs ∧ ∀ w ∈ xs, w ≠ v → countOcc xs w < countOcc xs v

instance (xs : List String) (v : String) : Decidable (StrictPlurality xs v) := by
  unfold StrictPlurality; infer_instance

end Consensus

namespace CarEntry

/-! Entry lane, car_entry.py. -/

/-- ENTRY_COOLDOWN = 300 (line 22). -/
def ENTRY_COOLDOWN : Int := 300
/-- MAX_DISTANCE = 50 (line 23). -/
def MAX_DISTANCE : Int := 50
/-- MIN_DISTANCE = 0 (line 24). -/
def MIN_DISTANCE : Int := 0

/-- Line 284: distance = read_distance(arduino) or (MAX_DISTANCE - 1).
A failed read (None) and a falsy reading (0.0) are both replaced by
MAX_DISTANCE - 1 by Python's or. -/
def effectiveDistance : Option Int → Int
  | none => MAX_DISTANCE - 1
  | some d => if d = 0 then MAX_DISTANCE - 1 else d

/-- Line 287: the cycle performs plate processing only when
MIN_DISTANCE <= distance <= MAX_DISTANCE. -/
def inCaptureRange (reading : Option Int) : Bool :=
  decide (MIN_DISTANCE ≤ effectiveDistance reading) &&
  decide (effectiveDistance reading ≤ MAX_DISTANCE)

/-- A row of vehicle_log as written by car_entry.py's INSERT (lines 227-233);
entry_time is an epoch-seconds abstraction of the TEXT timestamp, and the
empty exit_time TEXT is none. -/
structure VehicleRow where
  car_plate : String
  entry_time : Int
  exit_time : Option Int
  payment_status : String
  due_payment : String
  is_exited : String
deriving DecidableEq, Repr

/-- SELECT COUNT(*) FROM vehicle_log WHERE car_plate = ? AND payment_status = '0'
(lines 212-215). -/
def countUnpaid (db : List VehicleRow) (plate : String) : Nat :=
  (db.filter (fun r => r.car_plate == plate && r.payment_status == "0")).length

/-- has_unpaid_record (lines 208-221): count > 0 on success; the except
branch logs and returns False on a storage error. -/
def has_unpaid_record : DbResult Nat → Bool
  | .ok c => decide (0 < c)
  | .err => false

/-- The row inserted by insert_vehicle_log (lines 223-239): entry_time now,
exit_time empty, due_payment empty, payment_status '0', is_exited '0'. -/
def insert_vehicle_log_row (plate : String) (now : Int) : VehicleRow :=
  { car_plate := plate, entry_time := now, exit_time := none,
    payment_status := "0", due_payment := "", is_exited := "0" }

/-- Which branch of the consensus-point decision (lines 327-344) ran. -/
inductive EntryOutcome
  | admitted
  | suppressedCooldown
  | skippedUnpaid
deriving DecidableEq, Repr

/-- Per-lane session state: last_saved_plate and last_entry_time
(lines 272-273). -/
structure EntrySt where
  lastSavedPlate : Option String
  lastEntryTime : Int
deriving DecidableEq, Repr

/-- Observable effects of one entry decision: rows inserted and serial
bytes sent (the gate sequence is write b'1', hold, write b'0'). -/
structure EntryEffects where
  inserted : List VehicleRow
  serial : List Char
deriving DecidableEq, Repr

/-- The decision at a consensus point (lines 327-344), taking the ledger
query outcome as input:
  if not has_unpaid_record(common):
      if common != last_saved_plate or (now - last_entry_time) > ENTRY_COOLDOWN:
          insert_vehicle_log(common); gate open/close; update state. -/
def entryDecideCore (common : String) (now : Int) (q : DbResult Nat)
    (arduino : Bool) (st : EntrySt) : EntryOutcome × EntrySt × EntryEffects :=
  if has_unpaid_record q = false then
    if (st.lastSavedPlate != some common) || decide (ENTRY_COOLDOWN < now - st.lastEntryTime) then
      (.admitted, { lastSavedPlate := some common, lastEntryTime := now },
        { inserted := [insert_vehicle_log_row common now],
          serial := if arduino then ['1', '0'] else [] })
    else
      (.suppressedCooldown, st, { inserted := [], serial := [] })
  else
    (.skippedUnpaid, st, { inserted := [], serial := [] })

/-- Result of one entry decision against a live ledger. -/
structure EntryResult where
  outcome : EntryOutcome
  db : List VehicleRow
  st : EntrySt
  effects : EntryEffects
deriving DecidableEq, Repr

/-- One entry decision against a live ledger: the query succeeds and the
insert (when admitted) appends a row. -/
def entryStep (common : String) (now : Int) (arduino : Bool)
    (db : List VehicleRow) (st : EntrySt) : EntryResult :=
  match entryDecideCore common now (.ok (countUnpaid db common)) arduino st with
  | (o, st2, eff) => { outcome := o, db := db ++ eff.inserted, st := st2, effects := eff }

/-- The entry cycle's interaction with the ledger never raises: both
has_unpaid_record (lines 208-221) and insert_vehicle_log (lines 223-239)
catch storage errors internally, so the loop body completes normally. -/
def cycleLedgerStep (q : DbResult Nat) : Except Unit Bool :=
  .ok (has_unpaid_record q)

end CarEntry

namespace CarExit

/-! Exit lane, car_exit.py. -/

/-- EXIT_COOLDOWN = 300 (line 24). -/
def EXIT_COOLDOWN : Int := 300
/-- MAX_DISTANCE = 50 (line 25). -/
def MAX_DISTANCE : Int := 50
/-- MIN_DISTANCE = 0 (line 26). -/
def MIN_DISTANCE : Int := 0
/-- ALERT_COOLDOWN = 30 (line 213), a comment there says it is to prevent
repeated alerts. -/
def ALERT_COOLDOWN : Int := 30

/-- Line 224: distance = read_distance(arduino) or (MAX_DISTANCE - 1),
identical defaulting to the entry lane. -/
def effectiveDistance : Option Int → Int
  | none => MAX_DISTANCE - 1
  | some d => if d = 0 then MAX_DISTANCE - 1 else d

/-- Line 240: plate processing happens only when
MIN_DISTANCE <= distance <= MAX_DISTANCE. -/
def inCaptureRange (reading : Option Int) : Bool :=
  decide (MIN_DISTANCE ≤ effectiveDistance reading) &&
  decide (effectiveDistance reading ≤ MAX_DISTANCE)

/-- A row of vehicle_log as car_exit.py reads and writes it (schema of
lines 53-62); entry_time is the epoch-seconds abstraction of the TEXT
timestamp. -/
structure ExitRow where
  no : Nat
  car_plate : String
  entry_time : Int
  exit_time : Option Int
  payment_status : String
  due_payment : Int
deriving DecidableEq, Repr

/-- get_unpaid_record (lines 104-115):
SELECT no, due_payment WHERE car_plate = ? AND payment_status = '0'
ORDER BY entry_time DESC LIMIT 1 — the unpaid row with the greatest
entry_time. -/
def get_unpaid_record (db : List ExitRow) (plate : String) : Option (Nat × Int) :=
  ((db.filter (fun r => r.car_plate == plate && r.payment_status == "0")).foldl
    (fun acc r =>
      match acc with
      | none => some r
      | some b => if b.entry_time < r.entry_time then some r else acc) none).map
    (fun r => (r.no, r.due_payment))

/-- A row of unauthorized_exit_alerts as inserted by log_unauthorized_exit
(lines 132-149), alert_time abstracted to epoch seconds. -/
structure AlertRow where
  car_plate : String
  alert_time : Int
  due_payment : Int
  alert_type : String
  resolved : Nat
deriving DecidableEq, Repr

/-- The row inserted by log_unauthorized_exit (resolved = 0). -/
def log_unauthorized_exit (plate : String) (now : Int) (due : Int) (ty : String) : AlertRow :=
  { car_plate := plate, alert_time := now, due_payment := due,
    alert_type := ty, resolved := 0 }

/-- update_exit_log (lines 117-130): SET exit_time = now, payment_status = '1'
WHERE no = record_id. -/
def update_exit_log (db : List ExitRow) (rid : Nat) (now : Int) : List ExitRow :=
  db.map (fun r =>
    if r.no == rid then { r with exit_time := some now, payment_status := "1" } else r)

/-- Which branch of the exit decision (lines 267-300) ran. -/
inductive ExitOutcome
  | alertRaised
  | exitMarked
  | skippedNoRecord
  | cooldownSuppressed
deriving DecidableEq, Repr

/-- Exit-lane session state: last_processed_plate, last_exit_time,
last_alert_time (lines 209-212). -/
structure ExitSt where
  lastProcessedPlate : Option String
  lastExitTime : Int
  lastAlertTime : Int
deriving DecidableEq, Repr

/-- Observable effects of one exit decision: alert rows inserted and serial
bytes sent (gate sequence '1' then '0'; alarm sequence '2' then 'S' via
trigger_alert, lines 151-171). -/
structure ExitEffects where
  alerts : List AlertRow
  serial : List Char
deriving DecidableEq, Repr

/-- Result of one exit decision. -/
structure ExitResult where
  outcome : ExitOutcome
  db : List ExitRow
  st : ExitSt
  effects : ExitEffects
deriving DecidableEq, Repr

/-- The exit decision at a consensus point (lines 267-300):
  if common != last_processed_plate or (now - last_exit_time) > EXIT_COOLDOWN:
      record_data = get_unpaid_record(common)
      if record_data:
          if due_payment > 0 and (now - last_alert_time) > ALERT_COOLDOWN:
              log_unauthorized_exit(...); alarm b'2' then b'S'; last_alert_time = now
          else:
              update_exit_log(record_id); gate b'1' then b'0'
          last_processed_plate = common; last_exit_time = now
      else: skip. -/
def exitDecide (common : String) (now : Int) (arduino : Bool)
    (db : List ExitRow) (st : ExitSt) : ExitResult :=
  if (st.lastProcessedPlate != some common) || decide (EXIT_COOLDOWN < now - st.lastExitTime) then
    match get_unpaid_record db common with
    | some (rid, due) =>
      if decide (0 < due) && decide (ALERT_COOLDOWN < now - st.lastAlertTime) then
        { outcome := .alertRaised, db := db,
          st := { lastProcessedPlate := some common, lastExitTime := now, lastAlertTime := now },
          effects := { alerts := [log_unauthorized_exit common now due "PAYMENT_PENDING"],
                       serial := if arduino then ['2', 'S'] else [] } }
      else
        { outcome := .exitMarked, db := update_exit_log db rid now,
          st := { lastProcessedPlate := some common, lastExitTime := now,
                  lastAlertTime := st.lastAlertTime },
          effects := { alerts := [], serial := if arduino then ['1', '0'] else [] } }
    | none =>
      { outcome := .skippedNoRecord, db := db, st := st,
        effects := { alerts := [], serial := [] } }
  else
    { outcome := .cooldownSuppressed, db := db, st := st,
      effects := { alerts := [], serial := [] } }

/-- The exit cycle's ledger access: get_unpaid_record (lines 104-115) has no
exception handler, so a storage error raises out of the cycle into main's
outer try (line 311), which ends the while-loop. -/
def cycleLedgerStep (q : DbResult (Option (Nat × Int))) : Except Unit (Option (Nat × Int)) :=
  match q with
  | .ok r => .ok r
  | .err => .error ()

end CarExit

/-- Run a lane loop over a list of frames: each frame runs the cycle body;
a raised error escapes the while-loop (both mains wrap the loop in a single
try), so later frames never run.  Returns how many frames were started. -/
def framesProcessed {α β ε : Type} (step : α → Except ε β) : List α → Nat
  | [] => 0
  | f :: fs =>
    match step f with
    | .ok _ => framesProcessed step fs + 1
    | .error _ => 1

namespace ProcessPayment

/-! Payment handshake, pms_hardware/src/process_payment.py. -/

/-- RATE_PER_MINUTE = 5 (line 10). -/
def RATE_PER_MINUTE : Int := 5

/-- Python's str.strip: drop leading and trailing whitespace characters. -/
def stripChars (s : List Char) : List Char :=
  ((s.dropWhile Char.isWhitespace).reverse.dropWhile Char.isWhitespace).reverse

/-- Python's str.split(',') with its explicit separator: split at every
comma, keeping empty fields (the empty string splits to one empty
field). -/
def splitOnComma (s : List Char) : List (List Char) :=
  s.foldr
    (fun c acc =>
      match acc with
      | [] => [[c]]
      | cur :: rest => if c = ',' then [] :: cur :: rest else (c :: cur) :: rest)
    [[]]

/-- Decimal value of a digit sequence (int on the joined digit string). -/
def natOfDigits (ds : List Char) : Nat :=
  ds.foldl (fun acc c => acc * 10 + (c.toNat - '0'.toNat)) 0

/-- parse_arduino_data (lines 47-66): strip the line, split on ',', require
exactly two fields; plate is field 0 stripped; the balance field is reduced
to its digit characters (line 56) and converted, rejecting only when no
digit remains. -/
def parse_arduino_data (line : String) : Option String × Option Int :=
  match splitOnComma (stripChars line.data) with
  | [p0, p1] =>
    let bs := p1.filter Char.isDigit
    if bs.isEmpty then (none, none)
    else (some (String.mk (stripChars p0)), some (natOfDigits bs : Int))
  | _ => (none, none)

/-- A row of vehicle_log under the schema created by this file's init_db
(lines 16-25): columns no, entry_time, exit_time, car_plate, due_payment,
payment_status.  rowid is the sqlite rowid the queries use; entry_time is
the epoch-seconds abstraction of the TEXT timestamp (the TEXT format's
lexicographic order is chronological, so ORDER BY entry_time is Int
order). -/
structure PayRow where
  rowid : Nat
  car_plate : String
  entry_time : Int
  exit_time : Option Int
  due_payment : String
  payment_status : String
deriving DecidableEq, Repr

/-- The rows matching WHERE car_plate = ? AND payment_status = '0'
(lines 79-83). -/
def unpaidRecords (db : List PayRow) (plate : String) : List PayRow :=
  db.filter (fun r => r.car_plate == plate && r.payment_status == "0")

/-- Keep the row with the smaller entry_time, the earlier-scanned row
winning ties. -/
def selStep (acc : Option PayRow) (r : PayRow) : Option PayRow :=
  match acc with
  | none => some r
  | some b => if r.entry_time < b.entry_time then some r else acc

/-- records[0] after ORDER BY entry_time ASC (lines 79-92): the unpaid row
with the least entry_time. -/
def selectUnpaidRecord (db : List PayRow) (plate : String) : Option PayRow :=
  (unpaidRecords db plate).foldl selStep none

/-- Line 95: minutes_spent = int(elapsed_seconds / 60) + 1, for a
non-negative elapsed duration in whole seconds. -/
def minutes_spent (elapsedSecs : Nat) : Nat := elapsedSecs / 60 + 1

/-- Line 96: amount_due = minutes_spent * RATE_PER_MINUTE. -/
def amount_due_of (elapsedSecs : Nat) : Int :=
  (minutes_spent elapsedSecs : Int) * RATE_PER_MINUTE

/-- Columns of vehicle_log as created by init_db in process_payment.py
(lines 16-25). -/
def vehicleLogColumns : List String :=
  ["no", "entry_time", "exit_time", "car_plate", "due_payment", "payment_status"]

/-- Column names assigned by the UPDATE of lines 135-139:
SET exit_time = ?, amount_due = ?, payment_status = '1'. -/
def paymentUpdateSetColumns : List String :=
  ["exit_time", "amount_due", "payment_status"]

/-- The commit UPDATE of lines 135-141.  sqlite rejects an UPDATE whose SET
clause names a column absent from the table, raising OperationalError at
execute; only when every assigned column exists does the row change (then
setting exit_time and payment_status; the amount column the statement
names does not exist in the schema, so there is no field for it). -/
def commitPaymentRecord (db : List PayRow) (rid : Nat) (exitT : Int) :
    Except String (List PayRow) :=
  if paymentUpdateSetColumns.all (fun c => vehicleLogColumns.contains c) then
    .ok (db.map (fun r =>
      if r.rowid == rid then { r with exit_time := some exitT, payment_status := "1" } else r))
  else
    .error "no such column: amount_due"

/-- Substring test: Python's (pat in s). -/
def containsSub (hay pat : String) : Bool :=
  (List.range (hay.data.length + 1)).any (fun i => pat.data.isPrefixOf (hay.data.drop i))

/-- Messages process_payment writes to the terminal: b'I' on insufficient
funds (line 100); the new balance as text (line 121). -/
inductive PayMsg
  | insufficient
  | newBalance (n : Int)
deriving DecidableEq, Repr

/-- Result of one process_payment call: the ledger afterwards and the
messages written to the terminal. -/
structure PayResult where
  db : List PayRow
  serialOut : List PayMsg
deriving DecidableEq, Repr

/-- process_payment (lines 69-153).  ready says whether a READY line
arrived within the 5 s wait (lines 107-118); confirms is the list of lines
read during the 10 s confirmation wait (lines 125-148) — the commit runs
iff one of them contains DONE.  When the commit UPDATE raises (its SET
names a column absent from the schema), the exception lands in the except
of line 152 and the ledger is unchanged. -/
def process_payment (plate : String) (balance : Int) (ready : Bool)
    (confirms : List String) (now : Int) (db : List PayRow) : PayResult :=
  match selectUnpaidRecord db plate with
  | none => { db := db, serialOut := [] }
  | some r =>
    let elapsed := (now - r.entry_time).toNat
    let amount := amount_due_of elapsed
    if balance < amount then { db := db, serialOut := [.insufficient] }
    else if ready then
      let out : List PayMsg := [.newBalance (balance - amount)]
      if confirms.any (fun l => containsSub l "DONE") then
        match commitPaymentRecord db r.rowid now with
        | .ok db2 => { db := db2, serialOut := out }
        | .error _ => { db := db, serialOut := out }
      else { db := db, serialOut := out }
    else { db := db, serialOut := [] }

end ProcessPayment

/-! ## Helper lemmas -/

namespace Consensus

theorem mem_firstSeen (l : List String) : ∀ x : String, x ∈ firstSeen l ↔ x ∈ l := by
  induction l using firstSeen.induct with
  | case1 => intro x; rw [firstSeen]
  | case2 a l ih =>
    intro x
    rw [firstSeen]
    by_cases hx : x = a
    · subst hx; simp
    · simp only [List.mem_cons, ih, List.mem_filter, bne_iff_ne]
      simp [hx]

theorem pickMaxFrom_eq_of_strict (counts : String → Nat) (v : String) :
    ∀ (m : List String) (b : String),
      (b = v ∨ (counts b < counts v ∧ v ∈ m)) →
      (∀ w ∈ m, w ≠ v → counts w < counts v) →
      pickMaxFrom counts b m = v := by
  intro m
  induction m with
  | nil =>
    intro b hb _
    rcases hb with rfl | ⟨_, hv⟩
    · rfl
    · exact absurd hv (List.not_mem_nil v)
  | cons a m ih =>
    intro b hb hm
    have hmtail : ∀ w ∈ m, w ≠ v → counts w < counts v :=
      fun w hw hwv => hm w (List.mem_cons_of_mem _ hw) hwv
    simp only [pickMaxFrom]
    by_cases hav : a = v
    · subst hav
      split_ifs with hgt
      · exact ih a (Or.inl rfl) hmtail
      · rcases hb with rfl | ⟨hlt, _⟩
        · exact ih b (Or.inl rfl) hmtail
        · omega
    · have hac : counts a < counts v := hm a (List.mem_cons_self _ _) hav
      split_ifs with hgt
      · rcases hb with rfl | ⟨hlt, hvm⟩
        · omega
        · have hvm2 : v ∈ m := by
            rcases List.mem_cons.mp hvm with h | h
            · exact absurd h.symm hav
            · exact h
          exact ih a (Or.inr ⟨hac, hvm2⟩) hmtail
      · rcases hb with rfl | ⟨hlt, hvm⟩
        · exact ih b (Or.inl rfl) hmtail
        · have hvm2 : v ∈ m := by
            rcases List.mem_cons.mp hvm with h | h
            · exact absurd h.symm hav
            · exact h
          exact ih b (Or.inr ⟨hlt, hvm2⟩) hmtail

theorem mostCommon_of_plurality (xs : List String) (v : String)
    (h : StrictPlurality xs v) : mostCommon xs = some v := by
  obtain ⟨hv, hlt⟩ := h
  cases hfs : firstSeen xs with
  | nil =>
    exfalso
    have hmem : v ∈ firstSeen xs := (mem_firstSeen xs v).mpr hv
    rw [hfs] at hmem
    exact List.not_mem_nil v hmem
  | cons a m =>
    have heq : mostCommon xs = some (pickMaxFrom (countOcc xs) a m) := by
      unfold mostCommon
      rw [hfs]
    rw [heq]
    have hsub : ∀ w, w ∈ a :: m → w ∈ xs := by
      intro w hw
      have : w ∈ firstSeen xs := by rw [hfs]; exact hw
      exact (mem_firstSeen xs w).mp this
    have hv2 : v ∈ a :: m := by
      have : v ∈ firstSeen xs := (mem_firstSeen xs v).mpr hv
      rw [hfs] at this
      exact this
    have hm : ∀ w ∈ m, w ≠ v → countOcc xs w < countOcc xs v :=
      fun w hw hwv => hlt w (hsub w (List.mem_cons_of_mem _ hw)) hwv
    have hb : a = v ∨ (countOcc xs a < countOcc xs v ∧ v ∈ m) := by
      by_cases hav : a = v
      · exact Or.inl hav
      · refine Or.inr ⟨hlt a (hsub a (List.mem_cons_self _ _)) hav, ?_⟩
        rcases List.mem_cons.mp hv2 with h | h
        · exact absurd h.symm hav
        · exact h
    exact congrArg some (pickMaxFrom_eq_of_strict (countOcc xs) v m a hb hm)

end Consensus

/-! ## Claim theorems -/

/-- Claim C8: for every sequence of CAPTURE_THRESHOLD accepted candidates in
which one value occurs a strict plurality, running the consensus from an
empty buffer yields no decision on the first two candidates and exactly one
decision — that value, the most frequent string with ties broken by
first-seen order — on the third, with the buffer empty immediately after. -/
theorem c8_consensus_strict_plurality (xs : List String) (v : String)
    (hlen : xs.length = Consensus.CAPTURE_THRESHOLD)
    (hmaj : Consensus.StrictPlurality xs v) :
    Consensus.observeAll [] xs = ([none, none, some v], []) := by
  unfold Consensus.CAPTURE_THRESHOLD at hlen
  obtain ⟨a, b, c, rfl⟩ := List.length_eq_three.mp hlen
  show ([none, none, Consensus.mostCommon [a, b, c]], ([] : List String)) = _
  rw [Consensus.mostCommon_of_plurality _ _ hmaj]

/-- Witness for C8 at a concrete strict-plurality sequence. -/
theorem c8_consensus_strict_plurality_witness :
    Consensus.observeAll [] ["RAB123A", "RAB123A", "RAH972T"] =
      ([none, none, some "RAB123A"], []) :=
  c8_consensus_strict_plurality ["RAB123A", "RAB123A", "RAH972T"] "RAB123A" rfl (by decide)

/-- Claim C4 counterexample: the claim says a failed distance read behaves
as out of capture range (no plate processing); in the code a failed read
(read_distance returning None) is replaced by MAX_DISTANCE - 1 via
Python's or, which satisfies the range test on both lanes, so the cycle
DOES perform plate processing. -/
theorem c4_failed_read_processes_counterexample :
    CarEntry.inCaptureRange none = true ∧ CarExit.inCaptureRange none = true := by
  decide

/-- Claim C4 amended: in a cycle whose distance read fails, the distance
defaults to MAX_DISTANCE - 1 (49 cm), an in-range value, so the cycle
proceeds with plate processing exactly as if a vehicle were in the capture
zone — on the entry lane and the exit lane alike. -/
theorem c4_failed_read_defaults_in_range :
    CarEntry.effectiveDistance none = CarEntry.MAX_DISTANCE - 1 ∧
    CarEntry.inCaptureRange none = true ∧
    CarExit.effectiveDistance none = CarExit.MAX_DISTANCE - 1 ∧
    CarExit.inCaptureRange none = true := by
  decide

/-- Claim C5 counterexample: on the exit lane a ledger storage error in the
first of two frames ends the control loop — the second frame is never
processed, so a persistence failure does terminate the loop; and on the
entry lane a ledger query error does not abort the cycle's action: it
reads as "no unpaid record" and the decision proceeds all the way to
admission. -/
theorem c5_ledger_error_counterexample :
    framesProcessed CarExit.cycleLedgerStep [DbResult.err, DbResult.ok none] ≠
      ([DbResult.err, DbResult.ok none] :
        List (DbResult (Option (Nat × Int)))).length ∧
    CarEntry.has_unpaid_record DbResult.err = false ∧
    (CarEntry.entryDecideCore "RAB123A" 0 DbResult.err true ⟨none, 0⟩).1 =
      CarEntry.EntryOutcome.admitted := by
  decide

/-- Claim C5 amended: entry-lane ledger errors are swallowed — a query
error reads as no unpaid record, so the cycle proceeds to admission
instead of aborting, and the entry loop runs every frame regardless of
storage errors; an exit-lane ledger error, by contrast, propagates out of
the control loop, which terminates at that frame with no further frames
processed. -/
theorem c5_ledger_error_amended :
    (∀ frames : List (DbResult Nat),
      framesProcessed CarEntry.cycleLedgerStep frames = frames.length) ∧
    (∀ fs : List (DbResult (Option (Nat × Int))),
      framesProcessed CarExit.cycleLedgerStep (DbResult.err :: fs) = 1) ∧
    CarEntry.has_unpaid_record DbResult.err = false := by
  refine ⟨?_, fun fs => rfl, rfl⟩
  intro frames
  induction frames with
  | nil => rfl
  | cons f fs ih => simp [framesProcessed, CarEntry.cycleLedgerStep, ih]

/-- Claim C1 (code-bug evaluation): the most recent UNPAID record for
RAB123A owes 1200 and the exit cooldown passes (fresh lane state), but a
previous alert fired 10 s earlier — within ALERT_COOLDOWN = 30.  The
condition of car_exit.py line 273 (due_payment > 0 AND alert cooldown
elapsed) is then false, so the else branch of line 284 runs: the record is
marked exited and paid, the gate-open sequence '1','0' is sent, and no
alert row is inserted — the exit is granted although duePayment > 0. -/
theorem c1_exit_granted_within_alert_cooldown :
    CarExit.exitDecide "RAB123A" 100 true
        [⟨1, "RAB123A", 0, none, "0", 1200⟩] ⟨none, 0, 90⟩ =
      { outcome := CarExit.ExitOutcome.exitMarked,
        db := [⟨1, "RAB123A", 0, some 100, "1", 1200⟩],
        st := ⟨some "RAB123A", 100, 90⟩,
        effects := { alerts := [], serial := ['1', '0'] } } := by
  decide

namespace CarEntry

theorem countUnpaid_append_row (db : List VehicleRow) (plate : String) (t : Int) :
    countUnpaid (db ++ [insert_vehicle_log_row plate t]) plate =
      countUnpaid db plate + 1 := by
  simp [countUnpaid, insert_vehicle_log_row, List.filter_append]

end CarEntry

/-- Claim C9 counterexample: after the first admission inserts an UNPAID
record for the plate, the second decision 100 s later is suppressed in the
has_unpaid_record branch of car_entry.py line 327 — outcome skippedUnpaid —
not by the cooldown test of line 328, which is never reached; the claim's
stated suppression mechanism (lastActedPlate plus cooldown) is not the one
the code takes. -/
theorem c9_second_decision_not_cooldown_counterexample :
    (CarEntry.entryStep "RAB123A" 1100 true
        (CarEntry.entryStep "RAB123A" 1000 true [] ⟨none, 0⟩).db
        (CarEntry.entryStep "RAB123A" 1000 true [] ⟨none, 0⟩).st).outcome =
      CarEntry.EntryOutcome.skippedUnpaid ∧
    CarEntry.EntryOutcome.skippedUnpaid ≠ CarEntry.EntryOutcome.suppressedCooldown := by
  decide

/-- Claim C9 amended: with no UNPAID record for plate P and a first
decision that passes the cooldown, two consecutive entry decisions for P
within ENTRY_COOLDOWN produce exactly one inserted VehicleRecord and
exactly one gate-open actuation; the second decision is suppressed because
an UNPAID record for P now exists (the has_unpaid_record check), the
cooldown test sitting unreached behind it. -/
theorem c9_entry_idempotence_amended (plate : String) (t1 t2 : Int)
    (db0 : List CarEntry.VehicleRow) (st0 : CarEntry.EntrySt)
    (h0 : CarEntry.countUnpaid db0 plate = 0)
    (h1 : st0.lastSavedPlate ≠ some plate)
    (h2 : t2 - t1 ≤ CarEntry.ENTRY_COOLDOWN) :
    (CarEntry.entryStep plate t1 true db0 st0).outcome =
      CarEntry.EntryOutcome.admitted ∧
    (CarEntry.entryStep plate t1 true db0 st0).effects.inserted =
      [CarEntry.insert_vehicle_log_row plate t1] ∧
    (CarEntry.entryStep plate t1 true db0 st0).effects.serial = ['1', '0'] ∧
    (CarEntry.entryStep plate t2 true
        (CarEntry.entryStep plate t1 true db0 st0).db
        (CarEntry.entryStep plate t1 true db0 st0).st).outcome =
      CarEntry.EntryOutcome.skippedUnpaid ∧
    (CarEntry.entryStep plate t2 true
        (CarEntry.entryStep plate t1 true db0 st0).db
        (CarEntry.entryStep plate t1 true db0 st0).st).effects =
      { inserted := [], serial := [] } ∧
    (CarEntry.entryStep plate t2 true
        (CarEntry.entryStep plate t1 true db0 st0).db
        (CarEntry.entryStep plate t1 true db0 st0).st).db =
      db0 ++ [CarEntry.insert_vehicle_log_row plate t1] := by
  have hq : CarEntry.has_unpaid_record (.ok (CarEntry.countUnpaid db0 plate)) = false := by
    rw [h0]; rfl
  have hb : (st0.lastSavedPlate != some plate) = true := bne_iff_ne.mpr h1
  have hstep1 : CarEntry.entryStep plate t1 true db0 st0 =
      { outcome := .admitted,
        db := db0 ++ [CarEntry.insert_vehicle_log_row plate t1],
        st := ⟨some plate, t1⟩,
        effects := { inserted := [CarEntry.insert_vehicle_log_row plate t1],
                     serial := ['1', '0'] } } := by
    unfold CarEntry.entryStep CarEntry.entryDecideCore
    rw [hq]
    simp [hb]
  have hq2 : CarEntry.has_unpaid_record
      (.ok (CarEntry.countUnpaid (db0 ++ [CarEntry.insert_vehicle_log_row plate t1]) plate)) =
      true := by
    rw [CarEntry.countUnpaid_append_row, h0]
    rfl
  have hstep2 : CarEntry.entryStep plate t2 true
      (db0 ++ [CarEntry.insert_vehicle_log_row plate t1]) ⟨some plate, t1⟩ =
      { outcome := .skippedUnpaid,
        db := db0 ++ [CarEntry.insert_vehicle_log_row plate t1],
        st := ⟨some plate, t1⟩,
        effects := { inserted := [], serial := [] } } := by
    unfold CarEntry.entryStep CarEntry.entryDecideCore
    rw [hq2]
    simp
  rw [hstep1]
  refine ⟨rfl, rfl, rfl, ?_, ?_, ?_⟩ <;> rw [hstep2]

/-- Witness for the amended C9 at a concrete two-decision scenario. -/
theorem c9_entry_idempotence_amended_witness :
    (CarEntry.entryStep "RAB123A" 1000 true [] ⟨none, 0⟩).outcome =
      CarEntry.EntryOutcome.admitted ∧
    (CarEntry.entryStep "RAB123A" 1000 true [] ⟨none, 0⟩).effects.inserted =
      [CarEntry.insert_vehicle_log_row "RAB123A" 1000] ∧
    (CarEntry.entryStep "RAB123A" 1000 true [] ⟨none, 0⟩).effects.serial = ['1', '0'] ∧
    (CarEntry.entryStep "RAB123A" 1100 true
        (CarEntry.entryStep "RAB123A" 1000 true [] ⟨none, 0⟩).db
        (CarEntry.entryStep "RAB123A" 1000 true [] ⟨none, 0⟩).st).outcome =
      CarEntry.EntryOutcome.skippedUnpaid ∧
    (CarEntry.entryStep "RAB123A" 1100 true
        (CarEntry.entryStep "RAB123A" 1000 true [] ⟨none, 0⟩).db
        (CarEntry.entryStep "RAB123A" 1000 true [] ⟨none, 0⟩).st).effects =
      { inserted := [], serial := [] } ∧
    (CarEntry.entryStep "RAB123A" 1100 true
        (CarEntry.entryStep "RAB123A" 1000 true [] ⟨none, 0⟩).db
        (CarEntry.entryStep "RAB123A" 1000 true [] ⟨none, 0⟩).st).db =
      [] ++ [CarEntry.insert_vehicle_log_row "RAB123A" 1000] :=
  c9_entry_idempotence_amended "RAB123A" 1000 1100 [] ⟨none, 0⟩ rfl
    (by decide) (by decide)

namespace ProcessPayment

theorem selStep_fold_spec :
    ∀ (l : List PayRow) (acc : Option PayRow) (r : PayRow),
      l.foldl selStep acc = some r →
      (acc = some r ∨ r ∈ l) ∧
      (∀ x ∈ l, r.entry_time ≤ x.entry_time) ∧
      (∀ b, acc = some b → r.entry_time ≤ b.entry_time) := by
  intro l
  induction l with
  | nil =>
    intro acc r h
    simp only [List.foldl_nil] at h
    refine ⟨Or.inl h, by simp, ?_⟩
    intro b hb
    rw [h] at hb
    cases hb
    omega
  | cons a l ih =>
    intro acc r h
    simp only [List.foldl_cons] at h
    obtain ⟨h1, h2, h3⟩ := ih (selStep acc a) r h
    cases acc with
    | none =>
      have hra : r.entry_time ≤ a.entry_time := h3 a rfl
      refine ⟨?_, ?_, ?_⟩
      · right
        rcases h1 with hacc | hmem
        · cases hacc; exact List.mem_cons_self _ _
        · exact List.mem_cons_of_mem _ hmem
      · intro x hx
        rcases List.mem_cons.mp hx with rfl | hx2
        · exact hra
        · exact h2 x hx2
      · intro b hb
        cases hb
    | some b0 =>
      by_cases hlt : a.entry_time < b0.entry_time
      · have hstep : selStep (some b0) a = some a := by simp [selStep, hlt]
        rw [hstep] at h1 h3
        have hra : r.entry_time ≤ a.entry_time := h3 a rfl
        refine ⟨?_, ?_, ?_⟩
        · right
          rcases h1 with hacc | hmem
          · cases hacc; exact List.mem_cons_self _ _
          · exact List.mem_cons_of_mem _ hmem
        · intro x hx
          rcases List.mem_cons.mp hx with rfl | hx2
          · exact hra
          · exact h2 x hx2
        · intro b hb
          cases hb
          omega
      · have hstep : selStep (some b0) a = some b0 := by simp [selStep, hlt]
        rw [hstep] at h1 h3
        have hrb : r.entry_time ≤ b0.entry_time := h3 b0 rfl
        refine ⟨?_, ?_, ?_⟩
        · rcases h1 with hacc | hmem
          · exact Or.inl hacc
          · exact Or.inr (List.mem_cons_of_mem _ hmem)
        · intro x hx
          rcases List.mem_cons.mp hx with rfl | hx2
          · omega
          · exact h2 x hx2
        · intro b hb
          cases hb
          omega

end ProcessPayment

/-- Claim C3 counterexample: with two UNPAID records for RAB123A, entry
times 100 and 200, the handshake's selection — ORDER BY entry_time ASC,
records[0] — returns the record with entry time 100, the OLDER one, not
the most recent (entry time 200) as the claim states. -/
theorem c3_handshake_selects_oldest_counterexample :
    ProcessPayment.selectUnpaidRecord
        [⟨1, "RAB123A", 100, none, "", "0"⟩, ⟨2, "RAB123A", 200, none, "", "0"⟩]
        "RAB123A" =
      some ⟨1, "RAB123A", 100, none, "", "0"⟩ ∧
    ProcessPayment.selectUnpaidRecord
        [⟨1, "RAB123A", 100, none, "", "0"⟩, ⟨2, "RAB123A", 200, none, "", "0"⟩]
        "RAB123A" ≠
      some ⟨2, "RAB123A", 200, none, "", "0"⟩ := by
  decide

/-- Claim C3 amended: for every inbound payment message for plate P, when
several UNPAID records exist for P the handshake operates on the OLDEST
one — an unpaid record of P whose entry time is least among them (ordered
by entry time ascending, take first) — never a more recent one over an
older one. -/
theorem c3_handshake_selects_oldest_amended (db : List ProcessPayment.PayRow)
    (plate : String) (r : ProcessPayment.PayRow)
    (h : ProcessPayment.selectUnpaidRecord db plate = some r) :
    r ∈ ProcessPayment.unpaidRecords db plate ∧
    ∀ x ∈ ProcessPayment.unpaidRecords db plate, r.entry_time ≤ x.entry_time := by
  obtain ⟨h1, h2, _⟩ :=
    ProcessPayment.selStep_fold_spec (ProcessPayment.unpaidRecords db plate) none r h
  refine ⟨?_, h2⟩
  rcases h1 with h1 | h1
  · cases h1
  · exact h1

/-- Witness for the amended C3 at a concrete two-record ledger. -/
theorem c3_handshake_selects_oldest_amended_witness :
    (⟨1, "RAB123A", 100, none, "", "0"⟩ : ProcessPayment.PayRow) ∈
      ProcessPayment.unpaidRecords
        [⟨1, "RAB123A", 100, none, "", "0"⟩, ⟨2, "RAB123A", 200, none, "", "0"⟩]
        "RAB123A" ∧
    ∀ x ∈ ProcessPayment.unpaidRecords
        [⟨1, "RAB123A", 100, none, "", "0"⟩, ⟨2, "RAB123A", 200, none, "", "0"⟩]
        "RAB123A",
      (⟨1, "RAB123A", 100, none, "", "0"⟩ : ProcessPayment.PayRow).entry_time ≤
        x.entry_time :=
  c3_handshake_selects_oldest_amended _ "RAB123A" _ (by decide)

/-- Claim C6 counterexample: at an exact multiple of a minute the code does
not round up: 120 elapsed seconds bill as 3 minutes under
minutes_spent = floor(elapsed/60) + 1, while rounding 120 s up to the next
whole minute gives 2. -/
theorem c6_rounding_counterexample :
    ProcessPayment.minutes_spent 120 = 3 ∧ (120 + 59) / 60 = 2 ∧
    ProcessPayment.minutes_spent 120 ≠ (120 + 59) / 60 := by
  decide

/-- Claim C6 amended: billed minutes are floor(elapsed/60) + 1 — one more
than the number of completed minutes — and the amount due is that times
RATE_PER_MINUTE; this coincides with rounding up to the next whole minute
whenever the elapsed duration is not an exact number of minutes (in
particular 61 s bills as 2 minutes), but bills one extra minute at exact
multiples. -/
theorem c6_fee_floor_plus_one_amended (e : Nat) :
    ProcessPayment.minutes_spent e = e / 60 + 1 ∧
    ProcessPayment.amount_due_of e =
      ((e / 60 + 1 : Nat) : Int) * ProcessPayment.RATE_PER_MINUTE ∧
    (0 < e % 60 → ProcessPayment.minutes_spent e = (e + 59) / 60) ∧
    ProcessPayment.minutes_spent 61 = 2 := by
  refine ⟨rfl, rfl, ?_, rfl⟩
  intro h
  unfold ProcessPayment.minutes_spent
  omega

/-- Witness for the amended C6: 61 s is not an exact number of minutes and
bills as the round-up value. -/
theorem c6_fee_floor_plus_one_amended_witness :
    ProcessPayment.minutes_spent 61 = (61 + 59) / 60 :=
  (c6_fee_floor_plus_one_amended 61).2.2.1 (by decide)

/-- Claim C10: every inbound serial line parses either to (none, none) or
to a plate with a non-negative integer balance — the balance field is
reduced to its digit characters before conversion, so a field with a sign
or interspersed non-digits parses as the non-negative number formed by its
digits rather than being rejected, and a negative balance can never be
produced: '-50' parses as 50 and '1a2' as 12. -/
theorem c10_parser_nonnegative_balance :
    (∀ line : String,
      ProcessPayment.parse_arduino_data line = (none, none) ∨
      ∃ p b, ProcessPayment.parse_arduino_data line = (some p, some b) ∧ 0 ≤ b) ∧
    ProcessPayment.parse_arduino_data "RAB123A,-50" = (some "RAB123A", some 50) ∧
    ProcessPayment.parse_arduino_data "RAB123A,1a2" = (some "RAB123A", some 12) := by
  refine ⟨?_, by decide, by decide⟩
  intro line
  rcases hsp : ProcessPayment.splitOnComma (ProcessPayment.stripChars line.data) with
    _ | ⟨p0, _ | ⟨p1, _ | ⟨q, tl⟩⟩⟩ <;>
      simp only [ProcessPayment.parse_arduino_data, hsp]
  · exact Or.inl (by trivial)
  · exact Or.inl (by trivial)
  · cases hbs : (p1.filter Char.isDigit).isEmpty with
    | true =>
      simp only [hbs, if_true]
      exact Or.inl (by trivial)
    | false =>
      simp only [hbs, Bool.false_eq_true, if_false]
      exact Or.inr ⟨String.mk (ProcessPayment.stripChars p0), _, rfl, Int.natCast_nonneg _⟩
  · exact Or.inl (by trivial)

/-- Claim C2 (code-bug evaluation): even a fully successful handshake —
UNPAID record found, sufficient balance, READY received, DONE received —
leaves the ledger unchanged: the commit UPDATE of lines 135-139 assigns
column amount_due, which the vehicle_log schema (lines 16-25, column
due_payment) does not have, so sqlite rejects the statement, the except of
line 152 swallows the error, and paymentStatus never becomes PAID nor is
exitTime set. -/
theorem c2_commit_never_happens :
    ProcessPayment.commitPaymentRecord [⟨1, "RAB123A", 0, none, "", "0"⟩] 1 61 =
      Except.error "no such column: amount_due" ∧
    ProcessPayment.process_payment "RAB123A" 100 true ["DONE"] 61
        [⟨1, "RAB123A", 0, none, "", "0"⟩] =
      { db := [⟨1, "RAB123A", 0, none, "", "0"⟩],
        serialOut := [ProcessPayment.PayMsg.newBalance 90] } :=
  ⟨rfl, rfl⟩

/-- Claim C7: when an UNPAID record is matched, the balance suffices, READY
arrives, and then no line received during the confirmation wait contains
DONE (the completion acknowledgment never arrives before the timeout), the
ledger is returned unmodified — the UPDATE is never attempted, so
paymentStatus stays '0' and exitTime and duePayment are untouched; the
only message written after READY is the transmitted new balance. -/
theorem c7_timeout_no_mutation (plate : String) (balance : Int)
    (confirms : List String) (now : Int) (db : List ProcessPayment.PayRow)
    (r : ProcessPayment.PayRow)
    (hsel : ProcessPayment.selectUnpaidRecord db plate = some r)
    (hbal : ¬ balance < ProcessPayment.amount_due_of (now - r.entry_time).toNat)
    (hnod : ∀ l ∈ confirms, ProcessPayment.containsSub l "DONE" = false) :
    ProcessPayment.process_payment plate balance true confirms now db =
      { db := db,
        serialOut := [ProcessPayment.PayMsg.newBalance
          (balance - ProcessPayment.amount_due_of (now - r.entry_time).toNat)] } := by
  have hany : (confirms.any fun l => ProcessPayment.containsSub l "DONE") = false := by
    rcases Bool.eq_false_or_eq_true
        (confirms.any fun l => ProcessPayment.containsSub l "DONE") with h | h
    · exfalso
      obtain ⟨x, hx, hpx⟩ := List.any_eq_true.mp h
      rw [hnod x hx] at hpx
      cases hpx
    · exact h
  unfold ProcessPayment.process_payment
  rw [hsel]
  simp [hbal, hany]

/-- Witness for C7 at a concrete timed-out handshake. -/
theorem c7_timeout_no_mutation_witness :
    ProcessPayment.process_payment "RAB123A" 100 true ["BUSY"] 61
        [⟨1, "RAB123A", 0, none, "", "0"⟩] =
      { db := [⟨1, "RAB123A", 0, none, "", "0"⟩],
        serialOut := [ProcessPayment.PayMsg.newBalance 90] } :=
  c7_timeout_no_mutation "RAB123A" 100 ["BUSY"] 61
    [⟨1, "RAB123A", 0, none, "", "0"⟩] ⟨1, "RAB123A", 0, none, "", "0"⟩
    (by decide) (by decide) (by decide)
